import Mathlib

/-!
Shallow embedding of the time-series assembly pipeline of the GEEadas
corn-frost exploration app (src/corn_frost_app.js, function `showTimeSeries`
and its helper `maskS2clouds`), together with the map-layer bookkeeping of
the click handlers.  Observations are modelled at the clicked point: each
archive image contributes its pixel values there.  A band value of `none`
models a masked (absent) pixel; a band that is not listed at all models a
band that the image does not carry.
-/

/-- One Sentinel-2 archive image restricted to the clicked point, as returned
by the archive query (`filterBounds`/`filterDate`).  `time` is the
`system:time_start` property in milliseconds, `cloudyPct` the scene-level
`CLOUDY_PIXEL_PERCENTAGE` property, `qa60` the integer QA60 quality bitmask
at the point, and `b8`, `b4` the raw integer-encoded reflectances at the
point. -/
structure ArchiveImg where
  time : ℕ
  cloudyPct : ℚ
  qa60 : ℕ
  b8 : ℚ
  b4 : ℚ
deriving DecidableEq

/-- The usability test of `maskS2clouds` (src/corn_frost_app.js lines
227-230): the pixel is kept iff bit 10 (cloud) and bit 11 (cirrus) of the
QA60 bitmask are both zero. -/
def usableQA (qa : ℕ) : Bool :=
  (qa &&& (1 <<< 10) == 0) && (qa &&& (1 <<< 11) == 0)

/-- An archive image after `maskS2clouds`: reflectance bands are `none`
when the pixel was masked by `updateMask`. -/
structure MaskedImg where
  time : ℕ
  b8 : Option ℚ
  b4 : Option ℚ
deriving DecidableEq

/-- `maskS2clouds` (src/corn_frost_app.js lines 225-232) at the clicked
point: if the QA60 bits are clear the reflectances are rescaled by
`divide(10000)`; otherwise `updateMask` masks the pixel, so every band
value becomes absent.  The image itself stays in the collection either
way; `copyProperties` keeps `system:time_start`. -/
def maskS2clouds (img : ArchiveImg) : MaskedImg :=
  if usableQA img.qa60 then
    { time := img.time, b8 := some (img.b8 / 10000), b4 := some (img.b4 / 10000) }
  else
    { time := img.time, b8 := none, b4 := none }

/-- Modelled from the spec: the external Earth Engine operation
`ee.Image.normalizedDifference(['B8','B4'])` called at
src/corn_frost_app.js line 237 is not part of this repository; per the
spec (§4.2) it computes `(nir - red) / (nir + red)` and marks the result
absent when the denominator is zero instead of dividing by zero. -/
def normalizedDifference (nir red : ℚ) : Option ℚ :=
  if nir + red = 0 then none else some ((nir - red) / (nir + red))

/-- An image of the derived NDVI collection `s2_ndvi`: a single `NDVI`
band at the point (absent when an input band was masked or the
denominator was zero) plus the copied timestamp. -/
structure NdviImg where
  time : ℕ
  ndvi : Option ℚ
deriving DecidableEq

/-- The NDVI map step (src/corn_frost_app.js lines 236-239).  A masked
input pixel yields a masked NDVI pixel. -/
def toNDVI (m : MaskedImg) : NdviImg :=
  { time := m.time,
    ndvi := match m.b8, m.b4 with
      | some nir, some red => normalizedDifference nir red
      | _, _ => none }

/-- The archive-side pipeline of `showTimeSeries` before classification:
scene-level cloud pre-filter (`CLOUDY_PIXEL_PERCENTAGE < 60`, line 222),
then `maskS2clouds`, then NDVI.  The input list order is the order in
which the archive returns the images. -/
def ndviStage (archive : List ArchiveImg) : List NdviImg :=
  ((archive.filter (fun i => decide (i.cloudyPct < 60))).map maskS2clouds).map toNDVI

/-- The five category labels of the classification decision (the
`statusText` cases of src/corn_frost_app.js lines 261-281) plus the
fallthrough `unknown`. -/
inductive Category where
  | notCrop
  | harvested
  | frostA
  | frostB
  | unaffected
  | unknown
deriving DecidableEq

/-- The classification of the clicked point (src/corn_frost_app.js lines
251-282).  `cornVal` and `frostVal` are the two raster samples from
`reduceRegion` with the `first` reducer; `none` models a null/undefined
sample (nodata or a point outside the raster).  `isCorn` is the strict
comparison `cornVal === 2`, so a null sample lands in the not-corn
branch. -/
def classify (cornVal frostVal : Option ℤ) : Category × String :=
  if cornVal = some 2 then
    if frostVal = some 1 then (Category.harvested, "#00FFFF")
    else if frostVal = some 2 then (Category.frostA, "#FF00FF")
    else if frostVal = some 3 then (Category.frostB, "#0000FF")
    else if frostVal = some 4 then (Category.unaffected, "#008000")
    else (Category.unknown, "gray")
  else (Category.notCrop, "black")

/-- `isFrostEvent` (src/corn_frost_app.js line 286): the marker branch is
taken exactly when the point is corn and the frost class is 2 or 3. -/
def isFrostEvent (cornVal frostVal : Option ℤ) : Bool :=
  decide (cornVal = some 2) &&
    (decide (frostVal = some 2) || decide (frostVal = some 3))

/-- Whether a proleptic Gregorian year is a leap year. -/
def isLeap (y : ℕ) : Bool :=
  (y % 4 == 0 && y % 100 != 0) || y % 400 == 0

/-- Days in a month of a given year. -/
def daysInMonth (y m : ℕ) : ℕ :=
  if m = 2 then (if isLeap y then 29 else 28)
  else if m = 4 ∨ m = 6 ∨ m = 9 ∨ m = 11 then 30
  else 31

/-- Days from the Unix epoch 1970-01-01 to the civil date `y-m-d`. -/
def daysFromEpoch (y m d : ℕ) : ℕ :=
  (List.range (y - 1970)).foldl (fun acc i => acc + (if isLeap (1970 + i) then 366 else 365)) 0 +
    (List.range (m - 1)).foldl (fun acc i => acc + daysInMonth y (i + 1)) 0 +
    (d - 1)

/-- Modelled from the spec's collaborator interface: the external
`ee.Date('y-m-d').millis()` value, i.e. UTC milliseconds since the epoch
at midnight of the civil date. -/
def eeDateMillis (y m d : ℕ) : ℕ :=
  daysFromEpoch y m d * 86400000

/-- One hour in milliseconds, the offset of `advance(1, 'hour')`. -/
def hourMillis : ℕ := 3600000

/-- An element of the merged charting collection at the clicked point:
timestamp plus an ordered association list of band name to value at the
point (`none` = band present but masked at the point; a name that does
not occur = band not carried by the image). -/
structure ChartObs where
  time : ℕ
  bands : List (String × Option ℚ)
deriving DecidableEq

/-- `frostImg1` (src/corn_frost_app.js lines 300-302): constant 0 renamed
`FrostMarker`, with a fully masked constant `NDVI` band added, at time
`t`. -/
def frostImg1 (t : ℕ) : ChartObs :=
  { time := t, bands := [("FrostMarker", some 0), ("NDVI", none)] }

/-- `frostImg2` (src/corn_frost_app.js lines 304-306): constant 1 renamed
`FrostMarker`, masked `NDVI` band, at time `t`. -/
def frostImg2 (t : ℕ) : ChartObs :=
  { time := t, bands := [("FrostMarker", some 1), ("NDVI", none)] }

/-- `frostLineCol` (src/corn_frost_app.js lines 296-308): the date is
2021-05-25 when `frostVal === 2` and 2021-06-30 otherwise (the branch
only runs when `frostVal` is 2 or 3); the two synthetic images sit at
that date's midnight and one hour later. -/
def frostLineCol (frostVal : Option ℤ) : List ChartObs :=
  let d := if frostVal = some 2 then eeDateMillis 2021 5 25 else eeDateMillis 2021 6 30
  [frostImg1 d, frostImg2 (d + hourMillis)]

/-- The band-alignment map of src/corn_frost_app.js lines 311-313: each
real NDVI image gets an additional fully masked `FrostMarker` band. -/
def withFrostMarkerBand (o : NdviImg) : ChartObs :=
  { time := o.time, bands := [("NDVI", o.ndvi), ("FrostMarker", none)] }

/-- A real NDVI image viewed as a charting observation in the non-frost
branch, where no band is added: it carries only its `NDVI` band. -/
def ndviOnly (o : NdviImg) : ChartObs :=
  { time := o.time, bands := [("NDVI", o.ndvi)] }

/-- The `select(bandsToSelect)` of src/corn_frost_app.js line 340: keep
exactly the named bands, in the requested order. -/
def selectBands (names : List String) (o : ChartObs) : ChartObs :=
  { time := o.time,
    bands := names.filterMap (fun n => (o.bands.lookup n).map (fun v => (n, v))) }

/-- The sort key of `.sort('system:time_start')`: non-decreasing
timestamps. -/
def byTime (a b : ChartObs) : Prop := a.time ≤ b.time

instance : DecidableRel byTime :=
  fun a b => inferInstanceAs (Decidable (a.time ≤ b.time))

instance : IsTotal ChartObs byTime :=
  ⟨fun a b => Nat.le_total a.time b.time⟩

instance : IsTrans ChartObs byTime :=
  ⟨fun _ _ _ h₁ h₂ => Nat.le_trans h₁ h₂⟩

/-- `.sort('system:time_start')` (src/corn_frost_app.js line 315): a
stable ascending sort of the collection by timestamp. -/
def sortByTime (l : List ChartObs) : List ChartObs :=
  List.insertionSort byTime l

/-- The result handed to the chart: classification label and line color,
the selected band list, and the final observation series
(`combinedCol.select(bandsToSelect)` at the clicked point). -/
structure AssembleResult where
  category : Category
  color : String
  bandsToSelect : List String
  series : List ChartObs
deriving DecidableEq

/-- The series assembly of `showTimeSeries` (src/corn_frost_app.js lines
219-340): scene pre-filter, cloud mask, NDVI; classify the point; in the
frost-event branch add the masked `FrostMarker` band to every real image,
merge in `frostLineCol`, sort by timestamp and select
`['FrostMarker','NDVI']`; otherwise keep the NDVI collection as is
(unsorted) and select `['NDVI']`. -/
def assemble (cornVal frostVal : Option ℤ) (archive : List ArchiveImg) : AssembleResult :=
  let s2_ndvi := ndviStage archive
  let cls := classify cornVal frostVal
  if isFrostEvent cornVal frostVal then
    let combined := (s2_ndvi.map withFrostMarkerBand) ++ frostLineCol frostVal
    { category := cls.1, color := cls.2,
      bandsToSelect := ["FrostMarker", "NDVI"],
      series := (sortByTime combined).map (selectBands ["FrostMarker", "NDVI"]) }
  else
    { category := cls.1, color := cls.2,
      bandsToSelect := ["NDVI"],
      series := (s2_ndvi.map ndviOnly).map (selectBands ["NDVI"]) }

/-- The band names an observation exposes, in order. -/
def channelsOf (o : ChartObs) : List String :=
  o.bands.map Prod.fst

/-- A map layer: the red `Clicked Point` dot or an imagery layer with its
display name. -/
inductive Layer where
  | pointMarker (lon lat : ℚ) (color name : String)
  | imageLayer (name : String)
deriving DecidableEq

/-- `ui.Map.Layers.set(i, x)`: replace the layer at position `i`, or
append when `i` equals the current length (the only way the app calls
it, src/corn_frost_app.js lines 214-215). -/
def layersSet (l : List Layer) (i : ℕ) (x : Layer) : List Layer :=
  if i = l.length then l ++ [x] else l.set i x

/-- The layer lists of the two linked maps. -/
structure UIState where
  leftLayers : List Layer
  rightLayers : List Layer
deriving DecidableEq

/-- The red dot layer created on a map click (src/corn_frost_app.js lines
212-213). -/
def clickedDot (lon lat : ℚ) : Layer :=
  Layer.pointMarker lon lat "red" "Clicked Point"

/-- The layer effect of a map click (src/corn_frost_app.js lines
210-215): one dot layer is set at index `layers().length()` on each
map. -/
def mapClickLayers (lon lat : ℚ) (s : UIState) : UIState :=
  { leftLayers := layersSet s.leftLayers s.leftLayers.length (clickedDot lon lat),
    rightLayers := layersSet s.rightLayers s.rightLayers.length (clickedDot lon lat) }

/-- The layer effect of a timeline (chart) click (src/corn_frost_app.js
lines 357-379): `rightMap.addLayer` is called twice, appending an RGB and
a false-color layer named after the clicked date. -/
def chartClickLayers (dateStr : String) (s : UIState) : UIState :=
  { s with
    rightLayers :=
      (s.rightLayers ++ [Layer.imageLayer ( "Clicked Date RGB (" ++ dateStr ++ ")" )]) ++
        [Layer.imageLayer ( "Clicked Date False Color (" ++ dateStr ++ ")" )] }

/-- The outcome of one `showTimeSeries` call: the updated layer state and
the assembled chart data.  `cornVal`/`frostVal` are the raster samples at
the clicked point and `archive` the archive query result, so a call's
result is a function of point, raster and archive only. -/
structure ShowTimeSeriesOutcome where
  ui : UIState
  result : AssembleResult
deriving DecidableEq

/-- `showTimeSeries` (src/corn_frost_app.js lines 202-391) as a state
transformer: it appends the click markers and computes the assembly
result; the result does not read the layer state. -/
def showTimeSeries (lon lat : ℚ) (cornVal frostVal : Option ℤ)
    (archive : List ArchiveImg) (s : UIState) : ShowTimeSeriesOutcome :=
  { ui := mapClickLayers lon lat s,
    result := assemble cornVal frostVal archive }

/-! ## Helper lemmas -/

lemma selectBands_time (ns : List String) (o : ChartObs) :
    (selectBands ns o).time = o.time := rfl

lemma sortByTime_sorted (l : List ChartObs) :
    List.Sorted byTime (sortByTime l) :=
  List.sorted_insertionSort byTime l

lemma sortByTime_perm (l : List ChartObs) :
    (sortByTime l).Perm l :=
  List.perm_insertionSort byTime l

lemma sorted_map_selectBands (ns : List String) {l : List ChartObs}
    (h : List.Sorted byTime l) :
    List.Sorted byTime (l.map (selectBands ns)) :=
  h.map (selectBands ns) (fun _ _ hab => hab)

lemma assemble_series_frost {c f : Option ℤ} (a : List ArchiveImg)
    (h : isFrostEvent c f = true) :
    (assemble c f a).series =
      (sortByTime ((ndviStage a).map withFrostMarkerBand ++ frostLineCol f)).map
        (selectBands ["FrostMarker", "NDVI"]) := by
  simp [assemble, h]

lemma assemble_series_nonfrost {c f : Option ℤ} (a : List ArchiveImg)
    (h : isFrostEvent c f = false) :
    (assemble c f a).series =
      ((ndviStage a).map ndviOnly).map (selectBands ["NDVI"]) := by
  simp [assemble, h]

lemma assemble_series_length (c f : Option ℤ) (a : List ArchiveImg) :
    (assemble c f a).series.length =
      (ndviStage a).length + (if isFrostEvent c f then 2 else 0) := by
  cases h : isFrostEvent c f
  · simp [assemble_series_nonfrost a h]
  · rw [assemble_series_frost a h]
    simp [List.length_map, (sortByTime_perm _).length_eq, frostLineCol]

lemma channelsOf_select_frost_real (o : NdviImg) :
    channelsOf (selectBands ["FrostMarker", "NDVI"] (withFrostMarkerBand o)) =
      ["FrostMarker", "NDVI"] := rfl

lemma channelsOf_select_syn0 (t : ℕ) :
    channelsOf (selectBands ["FrostMarker", "NDVI"] (frostImg1 t)) =
      ["FrostMarker", "NDVI"] := rfl

lemma channelsOf_select_syn1 (t : ℕ) :
    channelsOf (selectBands ["FrostMarker", "NDVI"] (frostImg2 t)) =
      ["FrostMarker", "NDVI"] := rfl

lemma channelsOf_select_plain (o : NdviImg) :
    channelsOf (selectBands ["NDVI"] (ndviOnly o)) = ["NDVI"] := rfl

lemma lookup_marker_withFrostMarkerBand (o : NdviImg) :
    (withFrostMarkerBand o).bands.lookup "FrostMarker" = some none := rfl

lemma lookup_ndvi_select_frost (o : NdviImg) :
    (selectBands ["FrostMarker", "NDVI"] (withFrostMarkerBand o)).bands.lookup "NDVI" =
      some o.ndvi := rfl

lemma lookup_ndvi_select_plain (o : NdviImg) :
    (selectBands ["NDVI"] (ndviOnly o)).bands.lookup "NDVI" = some o.ndvi := rfl

lemma mem_series_frost {c f : Option ℤ} {a : List ArchiveImg}
    (h : isFrostEvent c f = true) {o : ChartObs}
    (ho : o ∈ (assemble c f a).series) :
    ∃ x, (x ∈ (ndviStage a).map withFrostMarkerBand ∨ x ∈ frostLineCol f) ∧
      o = selectBands ["FrostMarker", "NDVI"] x := by
  rw [assemble_series_frost a h] at ho
  obtain ⟨x, hx, rfl⟩ := List.mem_map.1 ho
  exact ⟨x, List.mem_append.1 ((sortByTime_perm _).subset hx), rfl⟩

lemma mem_ndviStage {a : List ArchiveImg} {img : ArchiveImg}
    (h1 : img ∈ a) (h2 : img.cloudyPct < 60) :
    toNDVI (maskS2clouds img) ∈ ndviStage a := by
  unfold ndviStage
  exact List.mem_map_of_mem _ (List.mem_map_of_mem _
    (List.mem_filter.2 ⟨h1, by simpa using h2⟩))

lemma toNDVI_masked {img : ArchiveImg} (h : usableQA img.qa60 = false) :
    toNDVI (maskS2clouds img) = { time := img.time, ndvi := none } := by
  simp [toNDVI, maskS2clouds, h]

lemma classify_of_frostEvent {c f : Option ℤ} (h : isFrostEvent c f = true) :
    (classify c f).1 = Category.frostA ∨ (classify c f).1 = Category.frostB := by
  unfold isFrostEvent at h
  rw [Bool.and_eq_true, Bool.or_eq_true] at h
  obtain ⟨h2, h3⟩ := h
  rw [decide_eq_true_eq] at h2
  rcases h3 with h3 | h3 <;> rw [decide_eq_true_eq] at h3 <;> subst h2 <;> subst h3
  · left
    rfl
  · right
    rfl

/-! ## Claim theorems -/

/-- Claim C1, as stated, is false: in the non-frost branch the code never
sorts, so an archive delivered out of order yields an unsorted series.
Two cloud-free images at times 2 and 1, point classified harvested. -/
theorem assemble_series_sorted_counterexample :
    ¬ List.Sorted byTime
        (assemble (some 2) (some 1)
          [{ time := 2, cloudyPct := 0, qa60 := 0, b8 := 2000, b4 := 1000 },
           { time := 1, cloudyPct := 0, qa60 := 0, b8 := 2000, b4 := 1000 }]).series := by
  decide

/-- Claim C1 (amended): in the frost-event case the assembled series is
sorted non-decreasing by timestamp and is a permutation of the
cloud-filtered, NDVI-computed archive observations (marker-augmented and
band-selected) together with the two synthetic marker observations; in
the non-frost case the series is exactly the cloud-filtered,
NDVI-computed archive observations in the input archive order. -/
theorem assemble_series_sorted_perm (cornVal frostVal : Option ℤ)
    (archive : List ArchiveImg) :
    (isFrostEvent cornVal frostVal = true →
        List.Sorted byTime (assemble cornVal frostVal archive).series ∧
        (assemble cornVal frostVal archive).series.Perm
          (((ndviStage archive).map withFrostMarkerBand ++ frostLineCol frostVal).map
            (selectBands ["FrostMarker", "NDVI"]))) ∧
    (isFrostEvent cornVal frostVal = false →
        (assemble cornVal frostVal archive).series =
          ((ndviStage archive).map ndviOnly).map (selectBands ["NDVI"])) := by
  constructor
  · intro h
    rw [assemble_series_frost archive h]
    exact ⟨sorted_map_selectBands _ (sortByTime_sorted _), (sortByTime_perm _).map _⟩
  · exact assemble_series_nonfrost archive

/-- Claim C1 witness: the amended statement at a one-image archive, in
the frost-event case (corn, frost class 2) and in the harvested case. -/
theorem assemble_series_sorted_perm_witness :
    List.Sorted byTime
        (assemble (some 2) (some 2)
          [{ time := 9, cloudyPct := 0, qa60 := 0, b8 := 2000, b4 := 1000 }]).series ∧
    (assemble (some 2) (some 1)
        [{ time := 9, cloudyPct := 0, qa60 := 0, b8 := 2000, b4 := 1000 }]).series =
      ((ndviStage
          [{ time := 9, cloudyPct := 0, qa60 := 0, b8 := 2000, b4 := 1000 }]).map
        ndviOnly).map (selectBands ["NDVI"]) :=
  ⟨((assemble_series_sorted_perm (some 2) (some 2)
      [{ time := 9, cloudyPct := 0, qa60 := 0, b8 := 2000, b4 := 1000 }]).1 (by decide)).1,
   (assemble_series_sorted_perm (some 2) (some 1)
      [{ time := 9, cloudyPct := 0, qa60 := 0, b8 := 2000, b4 := 1000 }]).2 (by decide)⟩

/-- Claim C2: the classifier maps the raster samples to category and
color exactly per the decision table of src/corn_frost_app.js lines
258-282: a corn sample other than 2 gives not-crop/black for any frost
value; corn 2 with frost 1, 2, 3, 4 gives harvested/cyan, frost-A/magenta,
frost-B/blue, unaffected/green; corn 2 with any other frost value gives
unknown/gray. -/
theorem classify_decision_table (cornVal frostVal : Option ℤ) :
    (cornVal ≠ some 2 → classify cornVal frostVal = (Category.notCrop, "black")) ∧
    classify (some 2) (some 1) = (Category.harvested, "#00FFFF") ∧
    classify (some 2) (some 2) = (Category.frostA, "#FF00FF") ∧
    classify (some 2) (some 3) = (Category.frostB, "#0000FF") ∧
    classify (some 2) (some 4) = (Category.unaffected, "#008000") ∧
    (frostVal ≠ some 1 → frostVal ≠ some 2 → frostVal ≠ some 3 → frostVal ≠ some 4 →
        classify (some 2) frostVal = (Category.unknown, "gray")) := by
  refine ⟨?_, rfl, rfl, rfl, rfl, ?_⟩
  · intro h
    simp [classify, h]
  · intro h1 h2 h3 h4
    simp [classify, h1, h2, h3, h4]

/-- Claim C2 witness: corn value 1 with frost 3 is not-crop/black; corn
2 with the out-of-table frost value 7 is unknown/gray. -/
theorem classify_decision_table_witness :
    classify (some 1) (some 3) = (Category.notCrop, "black") ∧
    classify (some 2) (some 7) = (Category.unknown, "gray") :=
  ⟨(classify_decision_table (some 1) (some 3)).1 (by decide),
   (classify_decision_table (some 2) (some 7)).2.2.2.2.2
     (by decide) (by decide) (by decide) (by decide)⟩

/-- Claim C3: for a frost-event point the synthesizer produces exactly
two synthetic observations: one at midnight of the event date
(2021-05-25 for frost class 2, 2021-06-30 for frost class 3) with marker
value 0, and one exactly one hour later with marker value 1, the NDVI
band present but masked (absent, not zero) on both; in every non-frost
case the series is exactly the real observations, with nothing
synthesized. -/
theorem frost_marker_synthesis (cornVal frostVal : Option ℤ)
    (archive : List ArchiveImg) :
    frostLineCol (some 2) =
      [{ time := eeDateMillis 2021 5 25,
         bands := [("FrostMarker", some 0), ("NDVI", none)] },
       { time := eeDateMillis 2021 5 25 + hourMillis,
         bands := [("FrostMarker", some 1), ("NDVI", none)] }] ∧
    frostLineCol (some 3) =
      [{ time := eeDateMillis 2021 6 30,
         bands := [("FrostMarker", some 0), ("NDVI", none)] },
       { time := eeDateMillis 2021 6 30 + hourMillis,
         bands := [("FrostMarker", some 1), ("NDVI", none)] }] ∧
    hourMillis = 3600000 ∧
    (isFrostEvent cornVal frostVal = false →
        (assemble cornVal frostVal archive).series =
          ((ndviStage archive).map ndviOnly).map (selectBands ["NDVI"])) :=
  ⟨by decide, by decide, rfl, assemble_series_nonfrost archive⟩

/-- Claim C3 witness: the non-frost part at a harvested point with an
empty archive. -/
theorem frost_marker_synthesis_witness :
    (assemble (some 2) (some 4) []).series =
      ((ndviStage []).map ndviOnly).map (selectBands ["NDVI"]) :=
  (frost_marker_synthesis (some 2) (some 4) []).2.2.2 (by decide)

/-- Claim C4: in the frost-event case the band selection is
`['FrostMarker','NDVI']`, every real observation is given an explicitly
absent `FrostMarker` band before merging, and after `select` every
observation of the merged series exposes exactly those two channels; in
every other case the selection is `['NDVI']` and every series
observation exposes only the NDVI channel. -/
theorem assemble_channel_selection (cornVal frostVal : Option ℤ)
    (archive : List ArchiveImg) :
    (isFrostEvent cornVal frostVal = true →
        (assemble cornVal frostVal archive).bandsToSelect = ["FrostMarker", "NDVI"] ∧
        (∀ o ∈ (ndviStage archive).map withFrostMarkerBand,
            o.bands.lookup "FrostMarker" = some none) ∧
        ∀ o ∈ (assemble cornVal frostVal archive).series,
          channelsOf o = ["FrostMarker", "NDVI"]) ∧
    (isFrostEvent cornVal frostVal = false →
        (assemble cornVal frostVal archive).bandsToSelect = ["NDVI"] ∧
        ∀ o ∈ (assemble cornVal frostVal archive).series,
          channelsOf o = ["NDVI"]) := by
  constructor
  · intro h
    refine ⟨by simp [assemble, h], ?_, ?_⟩
    · intro o ho
      obtain ⟨n, _, rfl⟩ := List.mem_map.1 ho
      exact lookup_marker_withFrostMarkerBand n
    · intro o ho
      obtain ⟨x, hx, rfl⟩ := mem_series_frost h ho
      rcases hx with hx | hx
      · obtain ⟨n, _, rfl⟩ := List.mem_map.1 hx
        exact channelsOf_select_frost_real n
      · simp only [frostLineCol, List.mem_cons, List.not_mem_nil, or_false] at hx
        rcases hx with rfl | rfl
        · exact channelsOf_select_syn0 _
        · exact channelsOf_select_syn1 _
  · intro h
    refine ⟨by simp [assemble, h], ?_⟩
    intro o ho
    rw [assemble_series_nonfrost archive h] at ho
    obtain ⟨x, hx, rfl⟩ := List.mem_map.1 ho
    obtain ⟨n, _, rfl⟩ := List.mem_map.1 hx
    exact channelsOf_select_plain n

/-- Claim C4 witness: the frost-event part at a one-image archive with
corn 2, frost 3. -/
theorem assemble_channel_selection_witness :
    (assemble (some 2) (some 3)
        [{ time := 9, cloudyPct := 0, qa60 := 0, b8 := 2000, b4 := 1000 }]).bandsToSelect =
      ["FrostMarker", "NDVI"] ∧
    ∀ o ∈ (assemble (some 2) (some 3)
        [{ time := 9, cloudyPct := 0, qa60 := 0, b8 := 2000, b4 := 1000 }]).series,
      channelsOf o = ["FrostMarker", "NDVI"] :=
  ⟨((assemble_channel_selection (some 2) (some 3)
      [{ time := 9, cloudyPct := 0, qa60 := 0, b8 := 2000, b4 := 1000 }]).1 (by decide)).1,
   ((assemble_channel_selection (some 2) (some 3)
      [{ time := 9, cloudyPct := 0, qa60 := 0, b8 := 2000, b4 := 1000 }]).1 (by decide)).2.2⟩

/-- Claim C5: an observation is judged usable iff bit 10 (cloud) and bit
11 (cirrus) of its QA60 bitmask are both clear, and on acceptance the
reflectances are rescaled by dividing by 10000 (a rejected observation
has all its values masked). -/
theorem cloud_mask_bits (qa : ℕ) (img : ArchiveImg) :
    (usableQA qa = true ↔ (qa.testBit 10 = false ∧ qa.testBit 11 = false)) ∧
    (usableQA img.qa60 = true →
        maskS2clouds img =
          { time := img.time, b8 := some (img.b8 / 10000),
            b4 := some (img.b4 / 10000) }) ∧
    (usableQA img.qa60 = false →
        maskS2clouds img = { time := img.time, b8 := none, b4 := none }) := by
  refine ⟨?_, fun h => by simp [maskS2clouds, h], fun h => by simp [maskS2clouds, h]⟩
  have key : ∀ i : ℕ, (qa &&& 2 ^ i = 0) ↔ qa.testBit i = false := by
    intro i
    rw [Nat.and_two_pow]
    constructor
    · intro h
      rcases Nat.mul_eq_zero.1 h with h | h
      · cases hb : qa.testBit i
        · rfl
        · rw [hb] at h
          exact absurd h (by norm_num)
      · simp at h
    · intro h
      rw [h]
      simp
  have e10 : (1 <<< 10 : ℕ) = 2 ^ 10 := by norm_num [Nat.shiftLeft_eq]
  have e11 : (1 <<< 11 : ℕ) = 2 ^ 11 := by norm_num [Nat.shiftLeft_eq]
  unfold usableQA
  rw [Bool.and_eq_true, beq_iff_eq, beq_iff_eq, e10, e11, key 10, key 11]

/-- Claim C5 witness: QA60 = 1024 has the cloud bit set; a clear bitmask
leads to rescaled reflectances, bit 10 set leads to a fully masked
observation. -/
theorem cloud_mask_bits_witness :
    (usableQA 1024 = true ↔
      ((1024 : ℕ).testBit 10 = false ∧ (1024 : ℕ).testBit 11 = false)) ∧
    maskS2clouds { time := 3, cloudyPct := 0, qa60 := 0, b8 := 2000, b4 := 1000 } =
      { time := 3, b8 := some (2000 / 10000), b4 := some (1000 / 10000) } ∧
    maskS2clouds { time := 3, cloudyPct := 0, qa60 := 1024, b8 := 2000, b4 := 1000 } =
      { time := 3, b8 := none, b4 := none } :=
  ⟨(cloud_mask_bits 1024 ⟨3, 0, 0, 2000, 1000⟩).1,
   (cloud_mask_bits 1024 ⟨3, 0, 0, 2000, 1000⟩).2.1 (by decide),
   (cloud_mask_bits 1024 ⟨3, 0, 1024, 2000, 1000⟩).2.2 (by decide)⟩

/-- Claim C6: the index is `(nir - red) / (nir + red)` (0.5 and 0.1 give
2/3); a zero denominator yields an absent index, not an error, and the
observation is retained: the NDVI map keeps every observation and its
timestamp, and the assembled series has exactly one element per
cloud-pre-filtered archive observation plus the two synthetic markers in
the frost case. -/
theorem index_zero_denominator (nir red : ℚ) (m : MaskedImg)
    (cornVal frostVal : Option ℤ) (archive : List ArchiveImg) :
    normalizedDifference (1 / 2) (1 / 10) = some (2 / 3) ∧
    (nir + red = 0 → normalizedDifference nir red = none) ∧
    (nir + red ≠ 0 →
        normalizedDifference nir red = some ((nir - red) / (nir + red))) ∧
    (toNDVI m).time = m.time ∧
    (∀ ms : List MaskedImg, (ms.map toNDVI).length = ms.length) ∧
    (assemble cornVal frostVal archive).series.length =
      (ndviStage archive).length +
        (if isFrostEvent cornVal frostVal then 2 else 0) := by
  refine ⟨by norm_num [normalizedDifference], fun h => by simp [normalizedDifference, h],
    fun h => by simp [normalizedDifference, h], rfl, fun ms => List.length_map ms toNDVI,
    assemble_series_length cornVal frostVal archive⟩

/-- Claim C6 witness: a zero denominator gives an absent index; a
nonzero one gives the normalized-difference formula. -/
theorem index_zero_denominator_witness :
    normalizedDifference 0 0 = none ∧
    normalizedDifference (1 / 2) (1 / 10) =
      some (((1 : ℚ) / 2 - 1 / 10) / ((1 : ℚ) / 2 + 1 / 10)) :=
  ⟨(index_zero_denominator 0 0 ⟨0, none, none⟩ none none []).2.1 (by norm_num),
   (index_zero_denominator (1 / 2) (1 / 10) ⟨0, none, none⟩ none none []).2.2.1
     (by norm_num)⟩

/-- Claim C7, as stated, is false: an observation failing the cloud-mask
test (QA60 = 1024, cloud bit set) is not removed from the series — the
assembled series still contains an element at its timestamp, with the
NDVI value masked.  Only `updateMask` is applied; the collection is
never filtered by the mask. -/
theorem cloud_masked_retained_counterexample :
    usableQA 1024 = false ∧
    (assemble (some 2) (some 1)
        [{ time := 5, cloudyPct := 10, qa60 := 1024, b8 := 2000, b4 := 1000 }]).series =
      [{ time := 5, bands := [("NDVI", none)] }] := by
  decide

/-- Claim C7 (amended): an observation failing the cloud-mask test is
kept in the sequence with all its values masked — its NDVI is absent —
rather than being removed; the assembled series contains an element at
its timestamp whose NDVI channel is present but absent. -/
theorem cloud_masked_retained (cornVal frostVal : Option ℤ)
    (archive : List ArchiveImg) (img : ArchiveImg) :
    (usableQA img.qa60 = false →
        toNDVI (maskS2clouds img) = { time := img.time, ndvi := none }) ∧
    (img ∈ archive → img.cloudyPct < 60 → usableQA img.qa60 = false →
        ∃ o ∈ (assemble cornVal frostVal archive).series,
          o.time = img.time ∧ o.bands.lookup "NDVI" = some none) := by
  refine ⟨toNDVI_masked, ?_⟩
  intro h1 h2 h3
  have hn : ({ time := img.time, ndvi := none } : NdviImg) ∈ ndviStage archive := by
    rw [← toNDVI_masked h3]
    exact mem_ndviStage h1 h2
  cases hfe : isFrostEvent cornVal frostVal
  · rw [assemble_series_nonfrost archive hfe]
    exact ⟨selectBands ["NDVI"] (ndviOnly { time := img.time, ndvi := none }),
      List.mem_map_of_mem _ (List.mem_map_of_mem _ hn), rfl, rfl⟩
  · rw [assemble_series_frost archive hfe]
    refine ⟨selectBands ["FrostMarker", "NDVI"]
        (withFrostMarkerBand { time := img.time, ndvi := none }), ?_, rfl, rfl⟩
    exact List.mem_map_of_mem _ ((sortByTime_perm _).mem_iff.2
      (List.mem_append_left _ (List.mem_map_of_mem _ hn)))

/-- Claim C7 witness: the amended statement at the concrete cloudy
archive of the counterexample input. -/
theorem cloud_masked_retained_witness :
    ∃ o ∈ (assemble (some 2) (some 1)
        [{ time := 5, cloudyPct := 10, qa60 := 1024, b8 := 2000, b4 := 1000 }]).series,
      o.time = 5 ∧ o.bands.lookup "NDVI" = some none :=
  (cloud_masked_retained (some 2) (some 1)
      [{ time := 5, cloudyPct := 10, qa60 := 1024, b8 := 2000, b4 := 1000 }]
      { time := 5, cloudyPct := 10, qa60 := 1024, b8 := 2000, b4 := 1000 }).2
    (by decide) (by norm_num) (by decide)

/-- Claim C8, as stated, is false: a sample over nodata or a raster edge
(the `first` reducer returns null, modelled as `none`) is compared with
the strict `cornVal === 2`, fails it, and is classified not-crop/black —
not unknown/gray. -/
theorem nodata_sample_counterexample :
    classify none none = (Category.notCrop, "black") ∧
    classify none none ≠ (Category.unknown, "gray") := by
  decide

/-- Claim C8 (amended): sampling over nodata or a raster edge (a null
corn sample) yields not-crop/black — not an error and not unknown/gray;
unknown/gray arises exactly when the corn sample is 2 and the frost
sample is missing or outside 1-4; and both unknown and not-crop are
treated as non-frost for synthesis, so no synthetic observation is
produced. -/
theorem nodata_sample_classification (cornVal frostVal : Option ℤ)
    (archive : List ArchiveImg) :
    classify none frostVal = (Category.notCrop, "black") ∧
    classify (some 2) none = (Category.unknown, "gray") ∧
    ((classify cornVal frostVal).1 = Category.unknown →
        isFrostEvent cornVal frostVal = false) ∧
    ((classify cornVal frostVal).1 = Category.notCrop →
        isFrostEvent cornVal frostVal = false) ∧
    (isFrostEvent cornVal frostVal = false →
        (assemble cornVal frostVal archive).series =
          ((ndviStage archive).map ndviOnly).map (selectBands ["NDVI"])) := by
  refine ⟨by simp [classify], by decide, ?_, ?_, assemble_series_nonfrost archive⟩
  · intro h
    cases hfe : isFrostEvent cornVal frostVal
    · rfl
    · rcases classify_of_frostEvent hfe with hc | hc <;> rw [h] at hc <;>
        exact absurd hc (by decide)
  · intro h
    cases hfe : isFrostEvent cornVal frostVal
    · rfl
    · rcases classify_of_frostEvent hfe with hc | hc <;> rw [h] at hc <;>
        exact absurd hc (by decide)

/-- Claim C8 witness: an unknown-class point (corn 2, frost 7) takes the
non-frost branch, and a null-sample point assembles the plain NDVI
series. -/
theorem nodata_sample_classification_witness :
    isFrostEvent (some 2) (some 7) = false ∧
    (assemble none none []).series =
      ((ndviStage []).map ndviOnly).map (selectBands ["NDVI"]) :=
  ⟨(nodata_sample_classification (some 2) (some 7) []).2.2.1 (by decide),
   (nodata_sample_classification none none []).2.2.2.2 (by decide)⟩

/-- Claim C9: the assembly is deterministic — the result (classification,
color, band selection, series) of a `showTimeSeries` call is a function
of the clicked point's raster samples and the archive only: it does not
read the mutable layer state, so two calls on identical inputs yield
identical results whatever layer state each call starts from, including
the state produced by the first call itself. -/
theorem showTimeSeries_deterministic (lon lat : ℚ) (cornVal frostVal : Option ℤ)
    (archive : List ArchiveImg) (s₁ s₂ : UIState) :
    (showTimeSeries lon lat cornVal frostVal archive s₁).result =
      (showTimeSeries lon lat cornVal frostVal archive s₂).result ∧
    (showTimeSeries lon lat cornVal frostVal archive
        ((showTimeSeries lon lat cornVal frostVal archive s₁).ui)).result =
      (showTimeSeries lon lat cornVal frostVal archive s₁).result :=
  ⟨rfl, rfl⟩

/-- Claim C10: a map click appends the red dot layer to both maps at
index equal to the current layer count, leaving all earlier layers in
place, and a timeline click appends exactly two imagery layers to the
right map, leaving the left map and all earlier right-map layers
unchanged — layer state only ever grows. -/
theorem click_appends_layers (lon lat : ℚ) (dateStr : String) (s : UIState) :
    layersSet s.leftLayers s.leftLayers.length (clickedDot lon lat) =
      s.leftLayers ++ [clickedDot lon lat] ∧
    (mapClickLayers lon lat s).leftLayers = s.leftLayers ++ [clickedDot lon lat] ∧
    (mapClickLayers lon lat s).rightLayers = s.rightLayers ++ [clickedDot lon lat] ∧
    (chartClickLayers dateStr s).leftLayers = s.leftLayers ∧
    (chartClickLayers dateStr s).rightLayers =
      s.rightLayers ++
        [Layer.imageLayer ( "Clicked Date RGB (" ++ dateStr ++ ")" ),
         Layer.imageLayer ( "Clicked Date False Color (" ++ dateStr ++ ")" )] := by
  refine ⟨?_, ?_, ?_, rfl, ?_⟩ <;>
    simp [layersSet, mapClickLayers, chartClickLayers]
